/-
Verification of the CortexAI Fleet Manager core against its design
specification.

The JavaScript sources (manager/src/store.js, manager/src/railway-api.js,
manager/src/server.js) are shallowly embedded below.  JS strings are Lean
`String`s, JS objects used as keyed maps are association lists preserving
insertion order (JS object key order for string keys), nondeterministic
inputs (crypto randomness, clock readings, remote API responses) are
explicit parameters, and the filesystem side effects of the store module
are modelled by an explicit state plus an event trace.
-/

import Mathlib

set_option maxRecDepth 4000

/-! ## Character helpers (regex classes used by the JS sources) -/

/-- The class `[a-z0-9]` (complement of `[^a-z0-9]` in store.js `slugify`). -/
def isLowerAlnum (c : Char) : Bool :=
  ('a' ≤ c && c ≤ 'z') || ('0' ≤ c && c ≤ '9')

/-- ASCII lowering, the effect of JS `String.prototype.toLowerCase` on the
ASCII range (the only range that survives the slug character filters). -/
def asciiToLower (c : Char) : Char :=
  if 'A' ≤ c && c ≤ 'Z' then Char.ofNat (c.toNat + 32) else c

/-- The class `[a-zA-Z0-9 -]` kept by the name sanitizer in server.js. -/
def isNameChar (c : Char) : Bool :=
  ('a' ≤ c && c ≤ 'z') || ('A' ≤ c && c ≤ 'Z') || ('0' ≤ c && c ≤ '9') ||
    c = ' ' || c = '-'

/-! ## slugify (store.js)

```js
export function slugify(name) {
  return String(name || "")
    .toLowerCase()
    .replace(/[^a-z0-9]+/g, "-")
    .replace(/^-|-$/g, "")
    .slice(0, 30);
}
```

`replace(/[^a-z0-9]+/g, "-")` collapses every maximal run of
non-alphanumerics into one hyphen; `collapseGo` carries a flag recording
whether we are inside such a run. -/

def collapseGo : List Char → Bool → List Char
  | [], _ => []
  | c :: rest, inRun =>
    if isLowerAlnum c then c :: collapseGo rest false
    else if inRun then collapseGo rest inRun
    else '-' :: collapseGo rest true

/-- `replace(/^-|-$/g, "")`: drop one leading and one trailing hyphen. -/
def stripEdgeHyphens (l : List Char) : List Char :=
  let l1 := if l.head? = some '-' then l.tail else l
  if l1.getLast? = some '-' then l1.dropLast else l1

/-- slugify as a list-of-chars function. -/
def slugChars (name : String) : List Char :=
  (stripEdgeHyphens (collapseGo (name.toList.map asciiToLower) false)).take 30

def slugify (name : String) : String := ⟨slugChars name⟩

/-! ## Name sanitization (server.js handlers)

`name.trim().replace(/[^a-zA-Z0-9 -]/g, "").slice(0, 50)` -/

/-- JS `String.prototype.trim`: strip whitespace from both ends. -/
def jsTrim (s : String) : String :=
  ⟨((s.toList.dropWhile Char.isWhitespace).reverse.dropWhile
      Char.isWhitespace).reverse⟩

def sanitizeName (s : String) : String :=
  ⟨((jsTrim s).toList.filter isNameChar).take 50⟩

/-! ## Data model (store.js / server.js records) -/

structure RailwayRefs where
  projectId : String
  serviceId : String
  environmentId : String
  volumeId : String
  deriving Repr, DecidableEq

structure InstanceConfig where
  setupPassword : String
  gatewayToken : String
  deriving Repr, DecidableEq

structure Instance where
  id : String
  name : String
  createdAt : String
  railway : RailwayRefs
  config : InstanceConfig
  tailscaleHostname : Option String
  notes : String
  deriving Repr, DecidableEq

structure Tenant where
  id : String
  name : String
  slug : String
  createdAt : String
  notes : String
  tailscaleHostname : Option String
  instances : List (String × Instance)
  deriving Repr, DecidableEq

/-- The persisted registry document (`fleet.json`, schema v2). -/
structure FleetDoc where
  version : Nat
  tenants : List (String × Tenant)
  deriving Repr, DecidableEq

/-! ### JS-object-as-map operations on association lists -/

/-- `obj[k]` -/
def alLookup {α : Type} (l : List (String × α)) (k : String) : Option α :=
  match l with
  | [] => none
  | (k', v) :: rest => if k' = k then some v else alLookup rest k

/-- `obj[k] = v`: updates in place when the key exists, appends otherwise
(JS string-keyed property order). -/
def alInsert {α : Type} (l : List (String × α)) (k : String) (v : α) :
    List (String × α) :=
  match l with
  | [] => [(k, v)]
  | (k', v') :: rest =>
    if k' = k then (k, v) :: rest else (k', v') :: alInsert rest k v

/-- `delete obj[k]` -/
def alErase {α : Type} (l : List (String × α)) (k : String) :
    List (String × α) :=
  match l with
  | [] => []
  | (k', v') :: rest => if k' = k then rest else (k', v') :: alErase rest k

/-- `Object.values(obj)` -/
def alValues {α : Type} (l : List (String × α)) : List α := l.map Prod.snd

/-! ## Persistence model (store.js `load` / `save` / migration)

The store file (`/data/fleet.json`) either is absent, holds unparseable
bytes, holds a parsed pre-v2 document with a flat top-level `instances`
map (version field absent or < 2), or holds a parsed v2 document.
Filesystem writes are recorded as an event trace so ordering claims
("backup before overwrite") are expressible. -/

inductive FileData
  /-- A parsed JSON document whose `version` is absent or `< 2` and whose
  instances sit in a flat top-level map (the pre-tenant schema). -/
  | flatV1 (instances : List (String × Instance))
  /-- A parsed v2 document. -/
  | v2 (doc : FleetDoc)
  /-- File bytes that `JSON.parse` rejects. -/
  | corrupt (raw : String)
  deriving Repr, DecidableEq

structure FsState where
  storeFile : Option FileData
  deriving Repr, DecidableEq

inductive FsEvent
  /-- `fs.copyFileSync(STORE_PATH, bakPath)` recorded with the backup
  file name (relative to the data dir). -/
  | copyBackup (filename : String) (content : FileData)
  /-- The atomic temp-write-then-rename of `save` landing new content on
  the canonical store path. -/
  | writeStore (doc : FleetDoc)
  deriving Repr, DecidableEq

/-- store.js `emptyStore()`: fresh v2 document with the Default tenant.
`freshId` stands for `crypto.randomUUID()`, `now` for
`new Date().toISOString()`. -/
def emptyStore (freshId now : String) : FleetDoc :=
  { version := 2
    tenants := [(freshId,
      { id := freshId
        name := "Default"
        slug := "default"
        createdAt := now
        notes := ""
        tailscaleHostname := none
        instances := [] })] }

/-- store.js `migrateV1toV2` applied to a flat pre-v2 document (`load`
only calls it when the version check failed, matching the guard
`if (data.version >= 2) return data`). -/
def migrateV1toV2 (freshId now : String)
    (instances : List (String × Instance)) : FleetDoc :=
  { version := 2
    tenants := [(freshId,
      { id := freshId
        name := "Default"
        slug := "default"
        createdAt := now
        notes := "Auto-created during migration from v1. Contains pre-existing instances."
        tailscaleHostname := none
        instances := instances })] }

/-- store.js `save(data)`: timestamped backup of the existing file when
present, then atomic write.  `ts` stands for the sanitized
`new Date().toISOString()` used in the backup file name. -/
def save (fs : FsState) (ts : String) (doc : FleetDoc) :
    FsState × List FsEvent :=
  let backupEvents :=
    match fs.storeFile with
    | some old => [FsEvent.copyBackup s!"fleet.bak-{ts}.json" old]
    | none => []
  (⟨some (.v2 doc)⟩, backupEvents ++ [.writeStore doc])

/-- store.js `load()`: returns the document, the filesystem state after
the call, and the write events performed, in order. -/
def load (fs : FsState) (freshId now ts : String) :
    FleetDoc × FsState × List FsEvent :=
  match fs.storeFile with
  | some (.flatV1 insts) =>
    -- version absent or < 2: pre-migration backup, migrate, save.
    let preEvents := [FsEvent.copyBackup "fleet.bak-premigrate.json" (.flatV1 insts)]
    let doc := migrateV1toV2 freshId now insts
    let (fs', saveEvents) := save fs ts doc
    (doc, fs', preEvents ++ saveEvents)
  | some (.v2 doc) => (doc, fs, [])
  | some (.corrupt _) =>
    -- JSON.parse threw: fall into the catch branch.
    let doc := emptyStore freshId now
    let (fs', saveEvents) := save fs ts doc
    (doc, fs', saveEvents)
  | none =>
    -- readFileSync threw: fall into the catch branch.
    let doc := emptyStore freshId now
    let (fs', saveEvents) := save fs ts doc
    (doc, fs', saveEvents)

/-! ## Store CRUD (store.js)

Each mutating store function performs load-modify-save on the whole
document.  The HTTP handlers below run single-threaded over one request,
so the CRUD layer is embedded as pure document transformations; the
load/save wrapping is the identity on an already-v2 on-disk document
(proved in the C5 development below). -/

/-- store.js `addTenant` (document part): `data.tenants[tenant.id] = tenant`. -/
def addTenant (doc : FleetDoc) (tenant : Tenant) : FleetDoc :=
  { doc with tenants := alInsert doc.tenants tenant.id tenant }

/-- The `patch` object built by the PATCH tenant handler: only the keys
that were provided are present; `instances` is never among them (and
`updateTenant` additionally destructures it away). -/
structure TenantPatch where
  name : Option String := none
  slug : Option String := none
  notes : Option String := none
  deriving Repr, DecidableEq

/-- `Object.assign(tenant, patch)` for the metadata fields. -/
def applyTenantPatch (t : Tenant) (p : TenantPatch) : Tenant :=
  { t with
    name := p.name.getD t.name
    slug := p.slug.getD t.slug
    notes := p.notes.getD t.notes }

/-- store.js `updateTenant` (document part): `none` when the tenant id is
unknown, otherwise the patched document and tenant. -/
def updateTenant (doc : FleetDoc) (tenantId : String) (patch : TenantPatch) :
    Option (FleetDoc × Tenant) :=
  match alLookup doc.tenants tenantId with
  | none => none
  | some t =>
    let t' := applyTenantPatch t patch
    some ({ doc with tenants := alInsert doc.tenants tenantId t' }, t')

/-- store.js `removeTenant` (document part). -/
def removeTenant (doc : FleetDoc) (tenantId : String) : FleetDoc :=
  { doc with tenants := alErase doc.tenants tenantId }

/-- store.js `getTenant` (document part). -/
def getTenant (doc : FleetDoc) (tenantId : String) : Option Tenant :=
  alLookup doc.tenants tenantId

/-- store.js `getInstance` (document part). -/
def getInstance (doc : FleetDoc) (tenantId instanceId : String) :
    Option Instance :=
  match getTenant doc tenantId with
  | none => none
  | some t => alLookup t.instances instanceId

/-- store.js `addInstance` (document part): `none` when the tenant id is
unknown. -/
def addInstance (doc : FleetDoc) (tenantId : String) (inst : Instance) :
    Option FleetDoc :=
  match alLookup doc.tenants tenantId with
  | none => none
  | some t =>
    let t' := { t with instances := alInsert t.instances inst.id inst }
    some { doc with tenants := alInsert doc.tenants tenantId t' }

/-! ## Railway GraphQL client (railway-api.js `railwayGql`)

```js
export async function railwayGql(query, variables = {}) {
  const res = await fetch(...);
  if (res.status === 429) {
    const retryAfter = parseInt(res.headers.get("Retry-After") || "5", 10);
    await new Promise((r) => setTimeout(r, retryAfter * 1000));
    return railwayGql(query, variables);
  }
  if (!res.ok) { ... throw ... }
  const json = await res.json();
  if (json.errors && json.errors.length > 0) { ... throw ... }
  return json.data;
}
```

Each call consumes one server response from a trace; the recursive
rate-limit retry consumes the next one.  The returned list records the
seconds waited before each retry.  The `Retry-After` header is modelled
already parsed (`none` = header absent, defaulted to `"5"`). -/

structure GqlResponse where
  status : Nat
  retryAfter : Option Nat
  /-- messages in the JSON body's `errors` array -/
  errors : List String
  /-- the JSON body's `data` payload, opaque here -/
  data : String
  deriving Repr, DecidableEq

/-- JS `res.ok`: status in the inclusive range 200–299. -/
def httpOk (status : Nat) : Bool := 200 ≤ status && status ≤ 299

def railwayGql : List GqlResponse → Except String String × List Nat
  | [] => (.error "no response from server", [])
  | r :: rest =>
    if r.status = 429 then
      let retryAfter := r.retryAfter.getD 5
      let (res, waits) := railwayGql rest
      (res, retryAfter :: waits)
    else if !httpOk r.status then
      (.error s!"Railway API HTTP {r.status}", [])
    else if r.errors.length > 0 then
      let msgs := String.intercalate "; " r.errors
      (.error s!"Railway API error: {msgs}", [])
    else
      (.ok r.data, [])

/-! ## Status resolution (server.js `getInstanceStatus`) -/

structure Deployment where
  id : Option String
  status : String
  createdAt : Option String
  /-- set only on the degraded `{ status: "UNKNOWN", error }` marker -/
  error : Option String
  deriving Repr, DecidableEq

structure GatewayInfo where
  reachable : Bool
  deriving Repr, DecidableEq

/-- The health payload returned by an instance's `/healthz`. -/
structure Health where
  configured : Bool
  gateway : Option GatewayInfo
  deriving Repr, DecidableEq

structure Snapshot where
  deployment : Option Deployment
  domain : Option String
  health : Option Health
  status : String
  deriving Repr, DecidableEq

structure CacheEntry where
  data : Snapshot
  fetchedAt : Nat
  deriving Repr, DecidableEq

/-- The composite-status if-chain of `getInstanceStatus`
(server.js lines 152–177), verbatim. -/
def compositeStatus (deployment : Option Deployment) (health : Option Health) :
    String :=
  match deployment with
  | none => "no-deployment"
  | some d =>
    if d.status = "BUILDING" then "building"
    else if d.status = "DEPLOYING" then "deploying"
    else if d.status = "FAILED" || d.status = "CRASHED" then "failed"
    else if d.status = "SUCCESS" then
      match health with
      | none => "unhealthy"
      | some h =>
        if !h.configured then "needs-setup"
        else if (h.gateway.map GatewayInfo.reachable).getD false then "running"
        else "unhealthy"
    else if d.status = "REMOVED" then "stopped"
    else "unknown"

/-- The spec's §4.4 decision table, transcribed row by row, top to bottom,
first match winning (this definition follows the spec's words, to be
compared with `compositeStatus`, which follows the code). -/
def specStatusTable (deployment : Option Deployment) (health : Option Health) :
    String :=
  match deployment with
  | none => "no-deployment"                               -- none found
  | some d =>
    if d.status = "BUILDING" then "building"              -- building
    else if d.status = "DEPLOYING" then "deploying"       -- deploying
    else if d.status = "FAILED" || d.status = "CRASHED" then "failed"
    else if d.status = "SUCCESS" then
      match health with
      | none => "unhealthy"                               -- success / absent
      | some h =>
        if !h.configured then "needs-setup"               -- configured=false
        else if (h.gateway.map GatewayInfo.reachable).getD false then "running"
        else "unhealthy"                                  -- gateway unreachable
    else if d.status = "REMOVED" then "stopped"           -- removed
    else "unknown"                                        -- anything else

/-- The nondeterministic environment of one uncached status resolution:
the combined result of the two control-plane queries (`err` when either
throws), and what a health probe of the domain would return (`none` for a
non-2xx response or a timeout). -/
structure StatusArgs where
  remote : Except String (Option Deployment × Option String)
  probe : Option Health
  deriving Repr

structure StatusOutcome where
  snap : Snapshot
  cache : List (String × CacheEntry)
  /-- whether this call queried the control plane -/
  queried : Bool
  /-- whether this call issued the health probe -/
  probed : Bool
  deriving Repr, DecidableEq

/-- The cache-miss path of `getInstanceStatus` (server.js lines 100–181). -/
def fetchStatus (cache : List (String × CacheEntry)) (now : Nat)
    (instId : String) (args : StatusArgs) : StatusOutcome :=
  let (deployment, domain) :=
    match args.remote with
    | .ok (dep, dom) => (dep, dom)
    | .error e => (some ⟨none, "UNKNOWN", none, some e⟩, none)
  let doProbe := domain.isSome &&
    ((deployment.map Deployment.status).getD "" = "SUCCESS")
  let health := if doProbe then args.probe else none
  let snap : Snapshot := ⟨deployment, domain, health,
    compositeStatus deployment health⟩
  ⟨snap, alInsert cache instId ⟨snap, now⟩, true, doProbe⟩

/-- server.js `getInstanceStatus`, including the 30-second cache check.
`now` is `Date.now()` in milliseconds. -/
def getInstanceStatus (cache : List (String × CacheEntry)) (now : Nat)
    (instId : String) (args : StatusArgs) : StatusOutcome :=
  match alLookup cache instId with
  | some entry =>
    if now - entry.fetchedAt < 30000 then ⟨entry.data, cache, false, false⟩
    else fetchStatus cache now instId args
  | none => fetchStatus cache now instId args

/-! ## Tenant API handlers (server.js) -/

/-- Result of a tenant CRUD request: HTTP status, JSON `ok`/`error`
fields, and the registry document after the request. -/
structure TenantApiResult where
  status : Nat
  ok : Bool
  error : Option String
  doc : FleetDoc
  deriving Repr, DecidableEq

/-- `POST /api/tenants` (server.js lines 218–252).  `freshId` stands for
`crypto.randomUUID()`, `now` for `new Date().toISOString()`. -/
def postTenantHandler (doc : FleetDoc) (freshId now : String)
    (bodyName bodyNotes : Option String) : TenantApiResult :=
  match bodyName with
  | none => ⟨400, false, some "Name is required.", doc⟩
  | some n =>
    if jsTrim n = "" then ⟨400, false, some "Name is required.", doc⟩
    else
      let cleanName := sanitizeName n
      if cleanName = "" then
        ⟨400, false, some "Name must contain alphanumeric characters.", doc⟩
      else
        let slug := slugify cleanName
        if (alValues doc.tenants).any (fun t => t.slug = slug) then
          ⟨409, false, some s!"A tenant with slug \"{slug}\" already exists.", doc⟩
        else
          let tenant : Tenant :=
            { id := freshId
              name := cleanName
              slug := slug
              createdAt := now
              notes := bodyNotes.getD ""
              tailscaleHostname := none
              instances := [] }
          ⟨200, true, none, addTenant doc tenant⟩

/-- `PATCH /api/tenants/:tenantId` (server.js lines 280–301). -/
def patchTenantHandler (doc : FleetDoc) (tenantId : String)
    (bodyName bodyNotes : Option String) : TenantApiResult :=
  let notesPatch : TenantPatch := { notes := bodyNotes }
  match bodyName with
  | some n =>
    let cleanName := sanitizeName n
    if cleanName = "" then
      ⟨400, false, some "Name must contain alphanumeric characters.", doc⟩
    else
      let patch : TenantPatch :=
        { name := some cleanName, slug := some (slugify cleanName),
          notes := bodyNotes }
      match updateTenant doc tenantId patch with
      | none => ⟨404, false, some "Tenant not found.", doc⟩
      | some (doc', _) => ⟨200, true, none, doc'⟩
  | none =>
    match updateTenant doc tenantId notesPatch with
    | none => ⟨404, false, some "Tenant not found.", doc⟩
    | some (doc', _) => ⟨200, true, none, doc'⟩

/-- Result of `DELETE /api/tenants/:tenantId`: the warning log built from
individual remote-deletion failures, the project ids for which remote
deletion was requested (in order), and the final registry and cache. -/
structure DeleteTenantResult where
  status : Nat
  ok : Bool
  error : Option String
  warnings : List String
  requestedDeletes : List String
  doc : FleetDoc
  cache : List (String × CacheEntry)
  deriving Repr, DecidableEq

/-- One loop iteration of the cascade delete (server.js lines 314–321):
accumulates (requested project ids, collected errors, status cache). -/
def cascadeStep (remoteDelete : String → Except String Unit)
    (acc : List String × List String × List (String × CacheEntry))
    (inst : Instance) :
    List String × List String × List (String × CacheEntry) :=
  let (reqs, errs, cache) := acc
  match remoteDelete inst.railway.projectId with
  | .ok _ => (reqs ++ [inst.railway.projectId], errs, alErase cache inst.id)
  | .error e =>
    (reqs ++ [inst.railway.projectId], errs ++ [s!"{inst.name}: {e}"], cache)

/-- `DELETE /api/tenants/:tenantId` (server.js lines 305–334).
`remoteDelete` gives the outcome of `PROJECT_DELETE` per project id. -/
def deleteTenantHandler (doc : FleetDoc) (tenantId : String)
    (remoteDelete : String → Except String Unit)
    (cache : List (String × CacheEntry)) : DeleteTenantResult :=
  match getTenant doc tenantId with
  | none => ⟨404, false, some "Tenant not found.", [], [], doc, cache⟩
  | some tenant =>
    let (reqs, errs, cache') :=
      (alValues tenant.instances).foldl (cascadeStep remoteDelete)
        ([], [], cache)
    ⟨200, true, none, errs, reqs, removeTenant doc tenantId, cache'⟩

/-! ## Instance restart / redeploy handlers (server.js lines 537–571) -/

structure ActionResult where
  status : Nat
  ok : Bool
  message : Option String
  error : Option String
  cache : List (String × CacheEntry)
  deriving Repr, DecidableEq

/-- `POST /api/tenants/:tid/instances/:id/restart`.  `redeployCall` gives
the outcome of the `SERVICE_INSTANCE_REDEPLOY` mutation for a
(serviceId, environmentId) pair. -/
def restartInstanceHandler (doc : FleetDoc) (tid instId : String)
    (cache : List (String × CacheEntry))
    (redeployCall : String → String → Except String Unit) : ActionResult :=
  match getInstance doc tid instId with
  | none => ⟨404, false, none, some "Not found", cache⟩
  | some inst =>
    match redeployCall inst.railway.serviceId inst.railway.environmentId with
    | .error e => ⟨500, false, none, some e, cache⟩
    | .ok _ =>
      ⟨200, true, some "Redeployment triggered.", none, alErase cache inst.id⟩

/-- `POST /api/tenants/:tid/instances/:id/redeploy`. -/
def redeployInstanceHandler (doc : FleetDoc) (tid instId : String)
    (cache : List (String × CacheEntry))
    (redeployCall : String → String → Except String Unit) : ActionResult :=
  match getInstance doc tid instId with
  | none => ⟨404, false, none, some "Not found", cache⟩
  | some inst =>
    match redeployCall inst.railway.serviceId inst.railway.environmentId with
    | .error e => ⟨500, false, none, some e, cache⟩
    | .ok _ =>
      ⟨200, true, some "Redeployment triggered.", none, alErase cache inst.id⟩

/-! ## Provisioning workflow (`POST /api/tenants/:tid/instances`,
server.js lines 382–533) -/

/-- Default of the `GITHUB_REPO` configuration value. -/
def GITHUB_REPO : String := "TukaTek/cortexai-assistant"

/-- One `environments.edges` node of the project-create response. -/
structure EnvNode where
  id : String
  name : String
  deriving Repr, DecidableEq

structure ProjectCreateData where
  id : String
  environments : List EnvNode
  deriving Repr, DecidableEq

/-- Outcomes of the remote calls the workflow can make, in workflow
order.  Failed calls carry `String(err)` as rendered into log lines and
response bodies.  `tailscaleKey` covers the token exchange plus key
creation (either failure lands in the same catch). -/
structure RemoteOutcomes where
  projectCreate : Except String ProjectCreateData
  serviceCreate : Except String String
  volumeCreate : Except String String
  variableUpsert : Except String Unit
  tailscaleConfigured : Bool
  tailscaleKey : Except String String
  tailscaleVarUpsert : Except String Unit
  domainCreate : Except String (Option String)
  deploy : Except String Unit

/-- The nondeterministic local inputs: generated secrets and ids, and the
creation timestamp. -/
structure ProvisionEnv where
  genSetupPassword : String
  genGatewayToken : String
  genInstanceId : String
  now : String
  deriving Repr, DecidableEq

/-- The `instance` object of a successful creation response. -/
structure CreateSummary where
  id : String
  name : String
  setupPassword : String
  projectId : String
  serviceId : String
  environmentId : String
  deriving Repr, DecidableEq

/-- Result of the create-instance request.  `log` is the `log` field of
the JSON response (absent on the error path); `consoleLog` is every line
passed to `addLog`, i.e. the step log as collected. -/
structure CreateResult where
  status : Nat
  ok : Bool
  error : Option String
  log : Option (List String)
  created : Option CreateSummary
  doc : FleetDoc
  consoleLog : List String
  deriving Repr, DecidableEq

/-- The catch branch of the handler: `res.status(500).json({ ok: false,
error: String(err) })` — the response carries no `log` field; the
lines collected so far were only printed to the console. -/
def createErr (doc : FleetDoc) (consoleLog : List String) (e : String) :
    CreateResult :=
  ⟨500, false, some e, none, none, doc, consoleLog⟩

/-- The service name derivation (server.js line 426):
`"cortexai-" + cleanName.toLowerCase().replace(/\s+/g, "-").replace(/[^a-z0-9-]/g, "")`. -/
def collapseWsGo : List Char → Bool → List Char
  | [], _ => []
  | c :: rest, inRun =>
    if c.isWhitespace then
      if inRun then collapseWsGo rest true else '-' :: collapseWsGo rest true
    else c :: collapseWsGo rest false

def serviceSlugOf (cleanName : String) : String :=
  "cortexai-" ++
    ⟨(collapseWsGo (cleanName.toList.map asciiToLower) false).filter
      (fun c => isLowerAlnum c || c = '-')⟩

def createInstanceHandler (doc : FleetDoc) (tid : String)
    (bodyName bodySetupPassword bodyNotes : Option String)
    (env : ProvisionEnv) (remote : RemoteOutcomes) : CreateResult :=
  match getTenant doc tid with
  | none => ⟨404, false, some "Tenant not found.", none, none, doc, []⟩
  | some tenant =>
    match bodyName with
    | none => ⟨400, false, some "Name is required.", none, none, doc, []⟩
    | some rawName =>
      if jsTrim rawName = "" then
        ⟨400, false, some "Name is required.", none, none, doc, []⟩
      else
        let cleanName := sanitizeName rawName
        if cleanName = "" then
          ⟨400, false, some "Name must contain alphanumeric characters.",
            none, none, doc, []⟩
        else
          let finalSetupPassword :=
            match bodySetupPassword with
            | some p => if p = "" then env.genSetupPassword else p
            | none => env.genSetupPassword
          let gatewayToken := env.genGatewayToken
          let instanceId := env.genInstanceId
          -- Step 1: create Railway project.
          let projectLabel :=
            if tenant.slug = "default" then s!"CortexAI - {cleanName}"
            else s!"CortexAI - {tenant.slug} - {cleanName}"
          let log1 := [s!"Creating Railway project \"{projectLabel}\"..."]
          match remote.projectCreate with
          | .error e => createErr doc log1 e
          | .ok project =>
            let projectId := project.id
            let log2 := log1 ++ [s!"Project created: {projectId}"]
            -- Step 2: default environment.
            match project.environments.head? with
            | none =>
              createErr doc log2
                "Error: No default environment found in new project."
            | some envEdge =>
              let environmentId := envEdge.id
              let log3 :=
                log2 ++ [s!"Environment: {envEdge.name} ({environmentId})"]
              -- Step 3: create service from the GitHub repo.
              let serviceSlug := serviceSlugOf cleanName
              let log4 := log3 ++
                [s!"Creating service \"{serviceSlug}\" from {GITHUB_REPO}..."]
              match remote.serviceCreate with
              | .error e => createErr doc log4 e
              | .ok serviceId =>
                let log5 := log4 ++ [s!"Service created: {serviceId}"]
                -- Step 4: create volume.
                let log6 := log5 ++ ["Creating volume at /data..."]
                match remote.volumeCreate with
                | .error e => createErr doc log6 e
                | .ok volumeId =>
                  let log7 := log6 ++ [s!"Volume created: {volumeId}"]
                  -- Step 5: set environment variables.
                  let log8 := log7 ++ ["Setting environment variables..."]
                  match remote.variableUpsert with
                  | .error e => createErr doc log8 e
                  | .ok _ =>
                    let log9 := log8 ++ ["Variables set."]
                    -- Step 5b: best-effort Tailscale key.
                    let (tailscaleHostname, log10) :=
                      if remote.tailscaleConfigured then
                        let logA :=
                          log9 ++ ["Generating Tailscale auth key..."]
                        match remote.tailscaleKey with
                        | .error e =>
                          (none, logA ++ [s!"Tailscale setup skipped: {e}"])
                        | .ok _ =>
                          match remote.tailscaleVarUpsert with
                          | .error e =>
                            (none, logA ++ [s!"Tailscale setup skipped: {e}"])
                          | .ok _ =>
                            (some serviceSlug, logA ++
                              [s!"Tailscale key created. Device will join as \"{serviceSlug}\"."])
                      else (none, log9)
                    -- Step 6: best-effort public domain.
                    let log11 := log10 ++ ["Creating public domain..."]
                    let log12 :=
                      match remote.domainCreate with
                      | .ok d =>
                        let shown := d.getD "(pending)"
                        log11 ++ [s!"Domain: {shown}"]
                      | .error e =>
                        log11 ++
                          [s!"Domain creation note: {e} (may auto-assign later)."]
                    -- Step 7: trigger deployment.
                    let log13 := log12 ++ ["Triggering deployment..."]
                    match remote.deploy with
                    | .error e => createErr doc log13 e
                    | .ok _ =>
                      let log14 := log13 ++
                        ["Deployment triggered. Build will take several minutes."]
                      -- Step 8: persist the instance.
                      let inst : Instance :=
                        { id := instanceId
                          name := cleanName
                          createdAt := env.now
                          railway := ⟨projectId, serviceId, environmentId,
                            volumeId⟩
                          config := ⟨finalSetupPassword, gatewayToken⟩
                          tailscaleHostname := tailscaleHostname
                          notes := bodyNotes.getD "" }
                      let doc' := (addInstance doc tid inst).getD doc
                      let log15 := log14 ++ ["Instance saved to fleet store."]
                      ⟨200, true, none, some log15,
                        some ⟨instanceId, cleanName, finalSetupPassword,
                          projectId, serviceId, environmentId⟩,
                        doc', log15⟩

/-! ## Association-list lemmas -/

theorem alLookup_alInsert_self {α : Type} (l : List (String × α))
    (k : String) (v : α) : alLookup (alInsert l k v) k = some v := by
  induction l with
  | nil => simp [alInsert, alLookup]
  | cons hd tl ih =>
    obtain ⟨k', v'⟩ := hd
    by_cases h : k' = k
    · simp [alInsert, alLookup, h]
    · simp [alInsert, alLookup, h, ih]

theorem alLookup_eq_none_of_not_mem {α : Type} (l : List (String × α))
    (k : String) (h : k ∉ l.map Prod.fst) : alLookup l k = none := by
  induction l with
  | nil => simp [alLookup]
  | cons hd tl ih =>
    obtain ⟨k', v'⟩ := hd
    simp only [List.map_cons, List.mem_cons] at h
    push_neg at h
    have hk : k' ≠ k := Ne.symm h.1
    simp only [alLookup, if_neg hk]
    exact ih h.2

theorem alLookup_alErase_self {α : Type} (l : List (String × α))
    (k : String) (hnd : (l.map Prod.fst).Nodup) :
    alLookup (alErase l k) k = none := by
  induction l with
  | nil => simp [alErase, alLookup]
  | cons hd tl ih =>
    obtain ⟨k', v'⟩ := hd
    simp only [List.map_cons, List.nodup_cons] at hnd
    by_cases h : k' = k
    · subst h
      simp only [alErase, if_pos rfl]
      exact alLookup_eq_none_of_not_mem tl k' hnd.1
    · simp only [alErase, if_neg h, alLookup, if_neg h]
      exact ih hnd.2

/-! ## Cascade-delete loop characterization -/

theorem cascade_foldl (rd : String → Except String Unit) :
    ∀ (insts : List Instance) (reqs errs : List String)
      (cache : List (String × CacheEntry)),
      (insts.foldl (cascadeStep rd) (reqs, errs, cache)).1 =
          reqs ++ insts.map (fun i => i.railway.projectId) ∧
      (insts.foldl (cascadeStep rd) (reqs, errs, cache)).2.1 =
          errs ++ insts.filterMap (fun i =>
            match rd i.railway.projectId with
            | .ok _ => none
            | .error e => some s!"{i.name}: {e}") := by
  intro insts
  induction insts with
  | nil => simp
  | cons hd tl ih =>
    intro reqs errs cache
    simp only [List.foldl_cons, List.map_cons, List.filterMap_cons]
    cases hrd : rd hd.railway.projectId with
    | ok u =>
      simp only [cascadeStep, hrd]
      obtain ⟨h1, h2⟩ := ih (reqs ++ [hd.railway.projectId]) errs
        (alErase cache hd.id)
      rw [h1, h2]
      simp
    | error e =>
      simp only [cascadeStep, hrd]
      obtain ⟨h1, h2⟩ := ih (reqs ++ [hd.railway.projectId])
        (errs ++ [s!"{hd.name}: {e}"]) cache
      rw [h1, h2]
      simp

/-- Claim C8: deleting a tenant requests remote project deletion for every
owned instance, collects individual remote-deletion failures into the
warning log without aborting the remaining deletions, and removes the
tenant record (with all its instances) from the registry unconditionally,
regardless of how many remote deletions failed. -/
theorem c8_delete_tenant_cascade (doc : FleetDoc) (tid : String)
    (tenant : Tenant) (rd : String → Except String Unit)
    (cache : List (String × CacheEntry))
    (hT : getTenant doc tid = some tenant)
    (hnd : (doc.tenants.map Prod.fst).Nodup) :
    (deleteTenantHandler doc tid rd cache).status = 200 ∧
    (deleteTenantHandler doc tid rd cache).ok = true ∧
    (deleteTenantHandler doc tid rd cache).requestedDeletes =
      (alValues tenant.instances).map (fun i => i.railway.projectId) ∧
    (deleteTenantHandler doc tid rd cache).warnings =
      (alValues tenant.instances).filterMap (fun i =>
        match rd i.railway.projectId with
        | .ok _ => none
        | .error e => some s!"{i.name}: {e}") ∧
    getTenant (deleteTenantHandler doc tid rd cache).doc tid = none := by
  obtain ⟨h1, h2⟩ := cascade_foldl rd (alValues tenant.instances) [] [] cache
  simp only [deleteTenantHandler, hT]
  cases hfold : (alValues tenant.instances).foldl (cascadeStep rd)
      ([], [], cache) with
  | mk reqs rest =>
    obtain ⟨errs, cache'⟩ := rest
    rw [hfold] at h1 h2
    simp only at h1 h2
    subst h1 h2
    refine ⟨by trivial, by trivial, by simp, by simp, ?_⟩
    simp only [getTenant, removeTenant]
    exact alLookup_alErase_self doc.tenants tid hnd

def demoInst1 : Instance :=
  ⟨"i1", "One", "t0", ⟨"p1", "s1", "e1", "v1"⟩, ⟨"pw", "gt"⟩, none, ""⟩

def demoInst2 : Instance :=
  ⟨"i2", "Two", "t0", ⟨"p2", "s2", "e2", "v2"⟩, ⟨"pw", "gt"⟩, none, ""⟩

def demoTenant8 : Tenant :=
  ⟨"t1", "Acme", "acme", "t0", "", none, [("i1", demoInst1), ("i2", demoInst2)]⟩

def demoDoc8 : FleetDoc := ⟨2, [("t1", demoTenant8)]⟩

/-- A remote where deleting project `p1` fails and everything else works. -/
def demoRd8 : String → Except String Unit :=
  fun pid => if pid = "p1" then .error "Error: boom" else .ok ()

/-- Witness for C8: a tenant with two instances, one remote deletion
failing; the tenant and both instances are gone, the failure is logged. -/
theorem c8_delete_tenant_cascade_witness :
    (deleteTenantHandler demoDoc8 "t1" demoRd8 []).status = 200 ∧
    (deleteTenantHandler demoDoc8 "t1" demoRd8 []).ok = true ∧
    (deleteTenantHandler demoDoc8 "t1" demoRd8 []).requestedDeletes =
      (alValues demoTenant8.instances).map (fun i => i.railway.projectId) ∧
    (deleteTenantHandler demoDoc8 "t1" demoRd8 []).warnings =
      (alValues demoTenant8.instances).filterMap (fun i =>
        match demoRd8 i.railway.projectId with
        | .ok _ => none
        | .error e => some s!"{i.name}: {e}") ∧
    getTenant (deleteTenantHandler demoDoc8 "t1" demoRd8 []).doc "t1" = none :=
  c8_delete_tenant_cascade demoDoc8 "t1" demoTenant8 demoRd8 [] rfl
    (by decide)

/-- Claim C10: the restart and redeploy endpoints are behaviorally
identical: same remote redeploy mutation, same cache eviction, same
response, for every input. -/
theorem c10_restart_redeploy_equivalent (doc : FleetDoc) (tid instId : String)
    (cache : List (String × CacheEntry))
    (redeployCall : String → String → Except String Unit) :
    restartInstanceHandler doc tid instId cache redeployCall =
      redeployInstanceHandler doc tid instId cache redeployCall := rfl

/-! ## Status resolver lemmas -/

theorem fetchStatus_queried (cache : List (String × CacheEntry)) (now : Nat)
    (instId : String) (args : StatusArgs) :
    (fetchStatus cache now instId args).queried = true := by
  obtain ⟨rem, probe⟩ := args
  cases rem with
  | ok p => obtain ⟨d, m⟩ := p; rfl
  | error e => rfl

theorem fetchStatus_cache_eq (cache : List (String × CacheEntry)) (now : Nat)
    (instId : String) (args : StatusArgs) :
    (fetchStatus cache now instId args).cache =
      alInsert cache instId ⟨(fetchStatus cache now instId args).snap, now⟩ := by
  obtain ⟨rem, probe⟩ := args
  cases rem with
  | ok p => obtain ⟨d, m⟩ := p; rfl
  | error e => rfl

theorem getInstanceStatus_miss (cache : List (String × CacheEntry))
    (now : Nat) (instId : String) (args : StatusArgs)
    (hl : alLookup cache instId = none) :
    getInstanceStatus cache now instId args =
      fetchStatus cache now instId args := by
  simp [getInstanceStatus, hl]

theorem getInstanceStatus_hit (cache : List (String × CacheEntry))
    (now : Nat) (instId : String) (args : StatusArgs) (entry : CacheEntry)
    (hl : alLookup cache instId = some entry)
    (ht : now - entry.fetchedAt < 30000) :
    getInstanceStatus cache now instId args =
      ⟨entry.data, cache, false, false⟩ := by
  simp [getInstanceStatus, hl, ht]

theorem getInstanceStatus_stale (cache : List (String × CacheEntry))
    (now : Nat) (instId : String) (args : StatusArgs) (entry : CacheEntry)
    (hl : alLookup cache instId = some entry)
    (ht : ¬ now - entry.fetchedAt < 30000) :
    getInstanceStatus cache now instId args =
      fetchStatus cache now instId args := by
  simp [getInstanceStatus, hl, ht]

/-- Claim C6: `getInstanceStatus` derives the composite status by the
spec's decision table (top to bottom, first match wins): SUCCESS with a
domain and health `{configured: true, gateway reachable}` is "running";
SUCCESS with no health data is "unhealthy"; BUILDING is "building"
regardless of domain or health; and the health probe is issued exactly
when a domain is known and the deployment status is "SUCCESS". -/
theorem c6_status_resolution :
    (∀ dep h, compositeStatus dep h = specStatusTable dep h) ∧
    (∀ (now : Nat) (instId i c dom : String),
      (getInstanceStatus [] now instId
        ⟨.ok (some ⟨some i, "SUCCESS", some c, none⟩, some dom),
          some ⟨true, some ⟨true⟩⟩⟩).snap.status = "running") ∧
    (∀ (now : Nat) (instId i c dom : String),
      (getInstanceStatus [] now instId
        ⟨.ok (some ⟨some i, "SUCCESS", some c, none⟩, some dom),
          none⟩).snap.status = "unhealthy") ∧
    (∀ (now : Nat) (instId i c : String) (dom : Option String)
        (probe : Option Health),
      (getInstanceStatus [] now instId
        ⟨.ok (some ⟨some i, "BUILDING", some c, none⟩, dom),
          probe⟩).snap.status = "building") ∧
    (∀ (now : Nat) (instId : String) (dep : Option Deployment)
        (dom : Option String) (probe : Option Health),
      (getInstanceStatus [] now instId ⟨.ok (dep, dom), probe⟩).probed =
        (dom.isSome &&
          ((dep.map Deployment.status).getD "" = "SUCCESS"))) ∧
    (∀ (now : Nat) (instId e : String) (probe : Option Health),
      (getInstanceStatus [] now instId ⟨.error e, probe⟩).probed = false) :=
  ⟨fun _ _ => rfl, fun _ _ _ _ _ => rfl, fun _ _ _ _ _ => rfl,
    fun _ _ _ _ _ _ => rfl, fun _ _ _ _ _ => rfl, fun _ _ _ _ => rfl⟩

/-- Claim C7: two status requests for the same instance less than 30
seconds apart return identical snapshot content, querying the control
plane only once; a request after the TTL queries afresh and its snapshot
replaces the prior cache entry for that instance id. -/
theorem c7_status_cache_ttl (cache0 : List (String × CacheEntry))
    (instId : String) (args1 args2 args3 : StatusArgs) (t0 t1 t2 : Nat)
    (h0 : alLookup cache0 instId = none)
    (h1 : t1 - t0 < 30000)
    (h2 : ¬ t2 - t0 < 30000) :
    (getInstanceStatus cache0 t0 instId args1).queried = true ∧
    (getInstanceStatus (getInstanceStatus cache0 t0 instId args1).cache
        t1 instId args2).snap =
      (getInstanceStatus cache0 t0 instId args1).snap ∧
    (getInstanceStatus (getInstanceStatus cache0 t0 instId args1).cache
        t1 instId args2).queried = false ∧
    (getInstanceStatus (getInstanceStatus cache0 t0 instId args1).cache
        t1 instId args2).cache =
      (getInstanceStatus cache0 t0 instId args1).cache ∧
    (getInstanceStatus
        (getInstanceStatus (getInstanceStatus cache0 t0 instId args1).cache
          t1 instId args2).cache t2 instId args3).queried = true ∧
    alLookup (getInstanceStatus
        (getInstanceStatus (getInstanceStatus cache0 t0 instId args1).cache
          t1 instId args2).cache t2 instId args3).cache instId =
      some ⟨(getInstanceStatus
        (getInstanceStatus (getInstanceStatus cache0 t0 instId args1).cache
          t1 instId args2).cache t2 instId args3).snap, t2⟩ := by
  have e1 := getInstanceStatus_miss cache0 t0 instId args1 h0
  have hl2 : alLookup (getInstanceStatus cache0 t0 instId args1).cache
      instId =
      some ⟨(getInstanceStatus cache0 t0 instId args1).snap, t0⟩ := by
    conv_lhs => rw [e1, fetchStatus_cache_eq]
    rw [alLookup_alInsert_self, e1]
  have e2 := getInstanceStatus_hit
    (getInstanceStatus cache0 t0 instId args1).cache t1 instId args2
    ⟨(getInstanceStatus cache0 t0 instId args1).snap, t0⟩ hl2 h1
  have hl3 : alLookup (getInstanceStatus
      (getInstanceStatus cache0 t0 instId args1).cache t1 instId
        args2).cache instId =
      some ⟨(getInstanceStatus cache0 t0 instId args1).snap, t0⟩ := by
    rw [e2]
    exact hl2
  have e3 := getInstanceStatus_stale (getInstanceStatus
    (getInstanceStatus cache0 t0 instId args1).cache t1 instId args2).cache
    t2 instId args3 ⟨(getInstanceStatus cache0 t0 instId args1).snap, t0⟩
    hl3 h2
  refine ⟨by rw [e1]; exact fetchStatus_queried _ _ _ _,
    by rw [e2], by rw [e2], by rw [e2], ?_, ?_⟩
  · rw [e3]; exact fetchStatus_queried _ _ _ _
  · rw [e3, fetchStatus_cache_eq]
    rw [← e3]
    exact alLookup_alInsert_self _ _ _

def demoArgs : StatusArgs := ⟨.ok (none, none), none⟩

/-- Witness for C7 at concrete times 0 ms, 10 000 ms and 31 000 ms. -/
theorem c7_status_cache_ttl_witness :
    (getInstanceStatus [] 0 "i" demoArgs).queried = true ∧
    (getInstanceStatus (getInstanceStatus [] 0 "i" demoArgs).cache
        10000 "i" demoArgs).snap =
      (getInstanceStatus [] 0 "i" demoArgs).snap ∧
    (getInstanceStatus (getInstanceStatus [] 0 "i" demoArgs).cache
        10000 "i" demoArgs).queried = false ∧
    (getInstanceStatus (getInstanceStatus [] 0 "i" demoArgs).cache
        10000 "i" demoArgs).cache =
      (getInstanceStatus [] 0 "i" demoArgs).cache ∧
    (getInstanceStatus
        (getInstanceStatus (getInstanceStatus [] 0 "i" demoArgs).cache
          10000 "i" demoArgs).cache 31000 "i" demoArgs).queried = true ∧
    alLookup (getInstanceStatus
        (getInstanceStatus (getInstanceStatus [] 0 "i" demoArgs).cache
          10000 "i" demoArgs).cache 31000 "i" demoArgs).cache "i" =
      some ⟨(getInstanceStatus
        (getInstanceStatus (getInstanceStatus [] 0 "i" demoArgs).cache
          10000 "i" demoArgs).cache 31000 "i" demoArgs).snap, 31000⟩ :=
  c7_status_cache_ttl [] "i" demoArgs demoArgs demoArgs 0 10000 31000 rfl
    (by decide) (by decide)

/-- Claim C5: loading a pre-v2 document with a flat instances map yields a
version-2 document with exactly one tenant named Default (slug
"default") owning every original instance verbatim; the fixed-name
pre-migration backup is written before the migrated document replaces the
original; the migrated document is persisted immediately; and loading the
already-migrated document performs no further mutation. -/
theorem c5_migration_v1_to_v2 :
    (∀ (insts : List (String × Instance)) (freshId now ts : String),
      load ⟨some (.flatV1 insts)⟩ freshId now ts =
        (migrateV1toV2 freshId now insts,
         ⟨some (.v2 (migrateV1toV2 freshId now insts))⟩,
         [.copyBackup "fleet.bak-premigrate.json" (.flatV1 insts),
          .copyBackup s!"fleet.bak-{ts}.json" (.flatV1 insts),
          .writeStore (migrateV1toV2 freshId now insts)])) ∧
    (∀ (insts : List (String × Instance)) (freshId now : String),
      ∃ t : Tenant,
        alValues (migrateV1toV2 freshId now insts).tenants = [t] ∧
        (migrateV1toV2 freshId now insts).version = 2 ∧
        t.name = "Default" ∧ t.slug = "default" ∧ t.instances = insts) ∧
    (∀ (d : FleetDoc) (freshId now ts : String),
      load ⟨some (.v2 d)⟩ freshId now ts = (d, ⟨some (.v2 d)⟩, [])) :=
  ⟨fun _ _ _ _ => rfl,
   fun _ _ _ => ⟨_, rfl, rfl, rfl, rfl, rfl⟩,
   fun _ _ _ _ => rfl⟩

/-- Claim C9: a registry file that exists but cannot be parsed is treated
like an absent one: `load` returns a fresh v2 document with exactly one
tenant Default / "default" and no instances, persists it immediately over
the canonical path, and the corrupted content survives only as the
timestamped backup taken by `save`. -/
theorem c9_corrupt_registry_replaced (raw freshId now ts : String) :
    load ⟨some (.corrupt raw)⟩ freshId now ts =
      (emptyStore freshId now,
       ⟨some (.v2 (emptyStore freshId now))⟩,
       [.copyBackup s!"fleet.bak-{ts}.json" (.corrupt raw),
        .writeStore (emptyStore freshId now)]) ∧
    (load ⟨some (.corrupt raw)⟩ freshId now ts).1 =
      (load ⟨none⟩ freshId now ts).1 ∧
    (∃ t : Tenant,
      alValues (emptyStore freshId now).tenants = [t] ∧
      t.name = "Default" ∧ t.slug = "default" ∧ t.instances = []) :=
  ⟨rfl, rfl, ⟨_, rfl, rfl, rfl, rfl⟩⟩

/-! ## C1: rate-limit retry behaviour of `railwayGql` -/

/-- Counterexample to claim C1 as stated: with a response trace of two
consecutive 429s followed by a 200, the call does NOT fail after the
retried request returns 429 again — it waits a second time (5 s for the
absent header, then the 7 s the server provided) and succeeds on the
third response.  So more than one automatic retry is performed and the
call does not fail. -/
theorem c1_counterexample_double_429_retries_again :
    railwayGql [⟨429, none, [], ""⟩, ⟨429, some 7, [], ""⟩,
        ⟨200, none, [], "DATA"⟩] =
      (.ok "DATA", [5, 7]) ∧
    (railwayGql [⟨429, none, [], ""⟩, ⟨429, some 7, [], ""⟩,
        ⟨200, none, [], "DATA"⟩]).2.length = 2 := by
  constructor <;> rfl

/-- Claim C1 (amended): a 429 response makes the client wait the
server-provided Retry-After interval (5 seconds when the header is
absent) and retry; this repeats for every consecutive 429 without bound
(retry-as-recursion), so the call fails only through a non-429 error
response, and a non-429 response never triggers a retry. -/
theorem c1_amended_429_retry_unbounded :
    (∀ (r : GqlResponse) (rest : List GqlResponse), r.status = 429 →
      railwayGql (r :: rest) =
        ((railwayGql rest).1, r.retryAfter.getD 5 :: (railwayGql rest).2)) ∧
    (∀ (r : GqlResponse) (rest : List GqlResponse), r.status ≠ 429 →
      (railwayGql (r :: rest)).2 = []) := by
  constructor
  · intro r rest h429
    rw [railwayGql, if_pos h429]
  · intro r rest h
    rw [railwayGql, if_neg h]
    by_cases hok : httpOk r.status
    · by_cases herr : r.errors.length > 0
      · simp [hok, herr]
      · simp [hok, herr]
    · simp [hok]

/-- Witness for the amended C1: a single 429 with no Retry-After header
waits the 5-second default and the retried request's 200 succeeds;
a 500 response triggers no retry. -/
theorem c1_amended_429_retry_unbounded_witness :
    railwayGql [⟨429, none, [], ""⟩, ⟨200, none, [], "D"⟩] =
      ((railwayGql [⟨200, none, [], "D"⟩]).1,
        (none : Option Nat).getD 5 ::
          (railwayGql [⟨200, none, [], "D"⟩]).2) ∧
    (railwayGql [⟨500, none, [], ""⟩, ⟨200, none, [], "D"⟩]).2 = [] :=
  ⟨c1_amended_429_retry_unbounded.1 ⟨429, none, [], ""⟩
      [⟨200, none, [], "D"⟩] rfl,
    c1_amended_429_retry_unbounded.2 ⟨500, none, [], ""⟩
      [⟨200, none, [], "D"⟩] (by decide)⟩

/-! ## C2: slug uniqueness across registry mutations -/

def c2TenantA : Tenant := ⟨"t1", "Alpha", "alpha", "t0", "", none, []⟩

def c2TenantB : Tenant := ⟨"t2", "Beta", "beta", "t0", "", none, []⟩

def c2DemoDoc : FleetDoc := ⟨2, [("t1", c2TenantA), ("t2", c2TenantB)]⟩

/-- Claim C2 fails on the code: the PATCH tenant handler recomputes the
slug from the new name but never checks it against other tenants.
Renaming tenant `t2` ("Beta", slug "beta") to "Alpha" succeeds (HTTP
200) and leaves two tenants with slug "alpha" in the stored document,
breaking the uniqueness invariant the update operation was required to
preserve. -/
theorem c2_update_violates_slug_uniqueness :
    (c2DemoDoc.tenants.map (fun p => p.2.slug)).Nodup ∧
    (patchTenantHandler c2DemoDoc "t2" (some "Alpha") none).status = 200 ∧
    ((patchTenantHandler c2DemoDoc "t2" (some "Alpha") none).doc.tenants.map
      (fun p => p.2.slug)) = ["alpha", "alpha"] ∧
    ¬ ((patchTenantHandler c2DemoDoc "t2" (some "Alpha") none).doc.tenants.map
      (fun p => p.2.slug)).Nodup :=
  ⟨by decide, rfl, rfl, by decide⟩

/-- The companion fact for C2's add half: `POST /api/tenants` does refuse
a duplicate slug with HTTP 409 and leaves the registry unchanged. -/
theorem c2_add_rejects_duplicate_slug :
    (postTenantHandler c2DemoDoc "t3" "t0" (some "Alpha") none).status = 409 ∧
    (postTenantHandler c2DemoDoc "t3" "t0" (some "Alpha") none).doc =
      c2DemoDoc :=
  ⟨rfl, rfl⟩

/-! ## C3: provisioning failure at the variable-upsert step -/

def c3Tenant : Tenant := ⟨"t1", "Default", "default", "t0", "", none, []⟩

def c3Doc : FleetDoc := ⟨2, [("t1", c3Tenant)]⟩

def c3Env : ProvisionEnv := ⟨"pw16", "gt32", "inst-1", "t1time"⟩

/-- Remote outcomes where steps 1–3 succeed and the variable upsert
(step 4 of the spec's workflow) fails. -/
def c3Remote : RemoteOutcomes :=
  { projectCreate := .ok ⟨"proj-1", [⟨"env-1", "production"⟩]⟩
    serviceCreate := .ok "svc-1"
    volumeCreate := .ok "vol-1"
    variableUpsert := .error "Error: boom"
    tailscaleConfigured := false
    tailscaleKey := .ok "key"
    tailscaleVarUpsert := .ok ()
    domainCreate := .ok (some "d.up.railway.app")
    deploy := .ok () }

/-- Counterexample to claim C3 as stated: when the variable upsert fails,
the error response carries NO step log at all (`log` is absent from the
500 response body — the catch branch returns only `ok:false` and
`error`), and the step log as collected holds the lines for steps 1–3
PLUS the step-4 announcement line "Setting environment variables..."
(8 lines), not "exactly the log lines for steps 1–3".  The registry is
indeed unchanged. -/
theorem c3_counterexample_error_response_has_no_log :
    (createInstanceHandler c3Doc "t1" (some "My App") none none c3Env
      c3Remote).status = 500 ∧
    (createInstanceHandler c3Doc "t1" (some "My App") none none c3Env
      c3Remote).error = some "Error: boom" ∧
    (createInstanceHandler c3Doc "t1" (some "My App") none none c3Env
      c3Remote).log = none ∧
    (createInstanceHandler c3Doc "t1" (some "My App") none none c3Env
      c3Remote).consoleLog.length = 8 ∧
    (createInstanceHandler c3Doc "t1" (some "My App") none none c3Env
      c3Remote).consoleLog.getLast? =
        some "Setting environment variables..." ∧
    (createInstanceHandler c3Doc "t1" (some "My App") none none c3Env
      c3Remote).doc = c3Doc :=
  ⟨rfl, rfl, rfl, rfl, rfl, rfl⟩

/-- The step-log lines the workflow emits for spec steps 1–3 (project
creation with environment capture, service creation, volume creation),
as written by the code. -/
def provisionLogSteps123 (tenant : Tenant)
    (cleanName pid envName envId sid vid : String) : List String :=
  let projectLabel :=
    if tenant.slug = "default" then s!"CortexAI - {cleanName}"
    else s!"CortexAI - {tenant.slug} - {cleanName}"
  [s!"Creating Railway project \"{projectLabel}\"...",
   s!"Project created: {pid}",
   s!"Environment: {envName} ({envId})",
   s!"Creating service \"{serviceSlugOf cleanName}\" from {GITHUB_REPO}...",
   s!"Service created: {sid}",
   "Creating volume at /data...",
   s!"Volume created: {vid}"]

/-- Claim C3 (amended): if the variable-upsert step fails, createInstance
returns an HTTP 500 error carrying the remote error but no step log (the
step log is only written to the console); the step log as collected
consists of the lines for steps 1–3 followed by the single step-4
announcement line; and no Instance is added to the registry. -/
theorem c3_amended_upsert_failure (doc : FleetDoc) (tid : String)
    (tenant : Tenant) (rawName : String) (pw notes : Option String)
    (env : ProvisionEnv) (remote : RemoteOutcomes)
    (pid envId envName : String) (envRest : List EnvNode)
    (sid vid e : String)
    (hT : getTenant doc tid = some tenant)
    (hname : ¬ jsTrim rawName = "")
    (hclean : ¬ sanitizeName rawName = "")
    (hpc : remote.projectCreate = .ok ⟨pid, ⟨envId, envName⟩ :: envRest⟩)
    (hsc : remote.serviceCreate = .ok sid)
    (hvc : remote.volumeCreate = .ok vid)
    (hvu : remote.variableUpsert = .error e) :
    (createInstanceHandler doc tid (some rawName) pw notes env
      remote).status = 500 ∧
    (createInstanceHandler doc tid (some rawName) pw notes env
      remote).ok = false ∧
    (createInstanceHandler doc tid (some rawName) pw notes env
      remote).error = some e ∧
    (createInstanceHandler doc tid (some rawName) pw notes env
      remote).log = none ∧
    (createInstanceHandler doc tid (some rawName) pw notes env
      remote).doc = doc ∧
    (createInstanceHandler doc tid (some rawName) pw notes env
      remote).consoleLog =
      provisionLogSteps123 tenant (sanitizeName rawName) pid envName envId
        sid vid ++ ["Setting environment variables..."] := by
  obtain ⟨pc, sc, vc, vu, tc, tk, tvu, dc, dep⟩ := remote
  simp only at hpc hsc hvc hvu
  subst hpc hsc hvc hvu
  simp [createInstanceHandler, hT, hname, hclean, createErr,
    provisionLogSteps123]

/-- Witness for the amended C3 at the concrete failing run. -/
theorem c3_amended_upsert_failure_witness :
    (createInstanceHandler c3Doc "t1" (some "My App") none none c3Env
      c3Remote).status = 500 ∧
    (createInstanceHandler c3Doc "t1" (some "My App") none none c3Env
      c3Remote).ok = false ∧
    (createInstanceHandler c3Doc "t1" (some "My App") none none c3Env
      c3Remote).error = some "Error: boom" ∧
    (createInstanceHandler c3Doc "t1" (some "My App") none none c3Env
      c3Remote).log = none ∧
    (createInstanceHandler c3Doc "t1" (some "My App") none none c3Env
      c3Remote).doc = c3Doc ∧
    (createInstanceHandler c3Doc "t1" (some "My App") none none c3Env
      c3Remote).consoleLog =
      provisionLogSteps123 c3Tenant (sanitizeName "My App") "proj-1"
        "production" "env-1" "svc-1" "vol-1" ++
        ["Setting environment variables..."] :=
  c3_amended_upsert_failure c3Doc "t1" c3Tenant "My App" none none c3Env
    c3Remote "proj-1" "env-1" "production" [] "svc-1" "vol-1" "Error: boom"
    rfl (by decide) (by decide) rfl rfl rfl rfl

/-! ## C4: shape of `slugify` output -/

/-- Adjacent-character relation: no two consecutive hyphens. -/
def slugR (a b : Char) : Prop := ¬(a = '-' ∧ b = '-')

theorem isLowerAlnum_ne_hyphen (c : Char) (h : isLowerAlnum c = true) :
    c ≠ '-' := by
  intro he
  subst he
  exact absurd h (by decide)

theorem asciiToLower_fixed (c : Char)
    (h : isLowerAlnum c = true ∨ c = '-') : asciiToLower c = c := by
  rcases h with h | h
  · simp only [isLowerAlnum, Bool.or_eq_true, Bool.and_eq_true,
      decide_eq_true_eq] at h
    rw [asciiToLower, if_neg]
    simp only [Bool.and_eq_true, decide_eq_true_eq, not_and]
    intro h1 h2
    rcases h with ⟨ha, hb⟩ | ⟨ha, hb⟩
    · exact absurd (le_trans ha h2) (by decide)
    · exact absurd (le_trans h1 hb) (by decide)
  · subst h; decide

theorem map_eq_self_of_fixed {α : Type} (l : List α) (f : α → α)
    (h : ∀ x ∈ l, f x = x) : l.map f = l := by
  induction l with
  | nil => rfl
  | cons a t ih =>
    simp [h a (by simp), ih (fun x hx => h x (by simp [hx]))]

theorem head?_take_sub {α : Type} (n : Nat) (l : List α) :
    (l.take n).head? = none ∨ (l.take n).head? = l.head? := by
  cases n with
  | zero => left; rfl
  | succ m => cases l with
    | nil => left; rfl
    | cons a t => right; rfl

theorem chain'_take {α : Type} {R : α → α → Prop} :
    ∀ (n : Nat) (l : List α), l.Chain' R → (l.take n).Chain' R := by
  intro n l
  induction l generalizing n with
  | nil => intro _; simp
  | cons a t ih =>
    intro h
    cases n with
    | zero => simp
    | succ m =>
      rw [List.take_succ_cons, List.chain'_cons']
      rw [List.chain'_cons'] at h
      refine ⟨?_, ih m h.2⟩
      intro b hb
      rcases head?_take_sub m t with he | he
      · rw [he] at hb; cases hb
      · rw [he] at hb; exact h.1 b hb

theorem collapse_mem (l : List Char) :
    ∀ (b : Bool) (c : Char), c ∈ collapseGo l b →
      isLowerAlnum c = true ∨ c = '-' := by
  induction l with
  | nil => intro b c hc; simp [collapseGo] at hc
  | cons a t ih =>
    intro b c hc
    by_cases ha : isLowerAlnum a = true
    · rw [collapseGo, if_pos ha] at hc
      rcases List.mem_cons.mp hc with he | hm
      · subst he; exact Or.inl ha
      · exact ih false c hm
    · cases b with
      | true =>
        rw [collapseGo, if_neg ha, if_pos rfl] at hc
        exact ih true c hc
      | false =>
        rw [collapseGo, if_neg ha] at hc
        simp only [Bool.false_eq_true, if_false] at hc
        rcases List.mem_cons.mp hc with he | hm
        · subst he; exact Or.inr rfl
        · exact ih true c hm

theorem collapse_chain (l : List Char) :
    ∀ b : Bool, (collapseGo l b).Chain' slugR ∧
      (b = true → (collapseGo l b).head? ≠ some '-') := by
  induction l with
  | nil =>
    intro b
    exact ⟨List.chain'_nil, fun _ => by simp [collapseGo]⟩
  | cons a t ih =>
    intro b
    by_cases ha : isLowerAlnum a = true
    · have hne : a ≠ '-' := isLowerAlnum_ne_hyphen a ha
      rw [collapseGo, if_pos ha]
      constructor
      · rw [List.chain'_cons']
        exact ⟨fun b _ hb => hne hb.1, (ih false).1⟩
      · intro _
        simp only [List.head?_cons, ne_eq, Option.some.injEq]
        exact hne
    · cases b with
      | true =>
        rw [collapseGo, if_neg ha, if_pos rfl]
        exact ⟨(ih true).1, fun _ => (ih true).2 rfl⟩
      | false =>
        rw [collapseGo, if_neg ha]
        simp only [Bool.false_eq_true, if_false]
        constructor
        · rw [List.chain'_cons']
          refine ⟨?_, (ih true).1⟩
          intro c hc hpair
          have := (ih true).2 rfl
          rw [hpair.2] at hc
          exact this hc
        · intro h; exact absurd h (by decide)

theorem head?_dropLast_sub {α : Type} (l : List α) :
    l.dropLast.head? = none ∨ l.dropLast.head? = l.head? := by
  rw [List.dropLast_eq_take]
  exact head?_take_sub _ l

theorem strip_subset (l : List Char) : stripEdgeHyphens l ⊆ l := by
  rw [stripEdgeHyphens]
  by_cases h1 : l.head? = some '-'
  · simp only [if_pos h1]
    by_cases h2 : l.tail.getLast? = some '-'
    · simp only [if_pos h2]
      exact fun c hc =>
        (List.tail_sublist l).subset ((l.tail.dropLast_sublist).subset hc)
    · simp only [if_neg h2]
      exact (List.tail_sublist l).subset
  · simp only [if_neg h1]
    by_cases h2 : l.getLast? = some '-'
    · simp only [if_pos h2]
      exact (l.dropLast_sublist).subset
    · simp only [if_neg h2]
      exact fun c hc => hc

theorem chain'_strip (l : List Char) (h : l.Chain' slugR) :
    (stripEdgeHyphens l).Chain' slugR := by
  rw [stripEdgeHyphens]
  by_cases h1 : l.head? = some '-'
  · simp only [if_pos h1]
    by_cases h2 : l.tail.getLast? = some '-'
    · simp only [if_pos h2]
      rw [List.dropLast_eq_take]
      exact chain'_take _ _ h.tail
    · simp only [if_neg h2]
      exact h.tail
  · simp only [if_neg h1]
    by_cases h2 : l.getLast? = some '-'
    · simp only [if_pos h2]
      rw [List.dropLast_eq_take]
      exact chain'_take _ _ h
    · simp only [if_neg h2]
      exact h

theorem strip_head (l : List Char) (h : l.Chain' slugR) :
    (stripEdgeHyphens l).head? ≠ some '-' := by
  have hl1 : (if l.head? = some '-' then l.tail else l).head? ≠ some '-' := by
    by_cases h1 : l.head? = some '-'
    · simp only [if_pos h1]
      cases l with
      | nil => simp at h1
      | cons a t =>
        simp only [List.head?_cons, Option.some.injEq] at h1
        subst h1
        simp only [List.tail_cons]
        intro ht
        rw [List.chain'_cons'] at h
        exact h.1 '-' ht ⟨rfl, rfl⟩
    · simp only [if_neg h1]
      exact h1
  rw [stripEdgeHyphens]
  by_cases h2 : (if l.head? = some '-' then l.tail else l).getLast? = some '-'
  · simp only [if_pos h2]
    rcases head?_dropLast_sub (if l.head? = some '-' then l.tail else l) with
      he | he
    · rw [he]; simp
    · rw [he]; exact hl1
  · simp only [if_neg h2]
    exact hl1

theorem strip_id (l : List Char) (h1 : l.head? ≠ some '-')
    (h2 : l.getLast? ≠ some '-') : stripEdgeHyphens l = l := by
  rw [stripEdgeHyphens]
  simp only [if_neg h1, if_neg h2]

theorem collapse_fix : ∀ (l : List Char) (b : Bool),
    (∀ c ∈ l, isLowerAlnum c = true ∨ c = '-') → l.Chain' slugR →
    (b = true → l.head? ≠ some '-') → collapseGo l b = l := by
  intro l
  induction l with
  | nil => intro b _ _ _; rfl
  | cons a t ih =>
    intro b hmem hch hhd
    by_cases ha : isLowerAlnum a = true
    · rw [collapseGo, if_pos ha]
      rw [List.chain'_cons'] at hch
      rw [ih false (fun c hc => hmem c (by simp [hc])) hch.2
        (fun hc => absurd hc (by decide))]
    · have ha' : a = '-' := (hmem a (by simp)).resolve_left ha
      cases b with
      | true =>
        exact absurd (by rw [List.head?_cons, ha']) (hhd rfl)
      | false =>
        rw [collapseGo, if_neg ha]
        simp only [Bool.false_eq_true, if_false]
        rw [List.chain'_cons'] at hch
        have hthead : t.head? ≠ some '-' := by
          intro ht
          exact hch.1 '-' ht ⟨ha', rfl⟩
        rw [ha', ih true (fun c hc => hmem c (by simp [hc])) hch.2
          (fun _ => hthead)]

theorem slug_mem (name : String) :
    ∀ c ∈ slugChars name, isLowerAlnum c = true ∨ c = '-' := by
  intro c hc
  have h1 : c ∈ stripEdgeHyphens
      (collapseGo (name.toList.map asciiToLower) false) :=
    (List.take_sublist 30 _).subset hc
  exact collapse_mem _ false c (strip_subset _ h1)

theorem slug_chain (name : String) : (slugChars name).Chain' slugR :=
  chain'_take 30 _ (chain'_strip _ (collapse_chain _ false).1)

theorem slug_head (name : String) : (slugChars name).head? ≠ some '-' := by
  rw [slugChars]
  rcases head?_take_sub 30 (stripEdgeHyphens
    (collapseGo (name.toList.map asciiToLower) false)) with he | he
  · rw [he]; simp
  · rw [he]; exact strip_head _ (collapse_chain _ false).1

theorem slug_len (name : String) : (slugChars name).length ≤ 30 := by
  rw [slugChars]
  simp [List.length_take]

def c4Name : String := "aaaaaaaaaaaaaaaaaaaaaaaaaaaaa b"

/-- Counterexample to claim C4 as stated: for the 31-character name of 29
`a`s, a space and a `b`, the hyphen that replaced the space lands at index
29, so the 30-character truncation ends in a hyphen — and a second
application of `slugify` strips that hyphen, so `slugify` is not
idempotent at this input. -/
theorem c4_counterexample_trailing_hyphen :
    slugify c4Name = "aaaaaaaaaaaaaaaaaaaaaaaaaaaaa-" ∧
    (slugify c4Name).toList.getLast? = some '-' ∧
    slugify (slugify c4Name) = "aaaaaaaaaaaaaaaaaaaaaaaaaaaaa" ∧
    slugify (slugify c4Name) ≠ slugify c4Name :=
  ⟨rfl, rfl, rfl, by decide⟩

/-- Claim C4 (amended): for every input name, `slugify`'s output is
lowercase, contains only characters in `[a-z0-9-]`, has no leading
hyphen, and is at most 30 characters; the output can end in a hyphen
(only when the 30-character truncation cuts right after one), and
whenever the output has no trailing hyphen, applying `slugify` again
returns it unchanged (idempotency holds exactly on that fringe
condition). -/
theorem c4_amended_slugify_shape (name : String) :
    (slugify name).length ≤ 30 ∧
    (∀ c ∈ (slugify name).toList, isLowerAlnum c = true ∨ c = '-') ∧
    (slugify name).toList.map asciiToLower = (slugify name).toList ∧
    (slugify name).toList.head? ≠ some '-' ∧
    ((slugify name).toList.getLast? ≠ some '-' →
      slugify (slugify name) = slugify name) := by
  have htl : (slugify name).toList = slugChars name := rfl
  refine ⟨slug_len name, ?_, ?_, ?_, ?_⟩
  · rw [htl]; exact slug_mem name
  · rw [htl]
    exact map_eq_self_of_fixed _ _
      (fun c hc => asciiToLower_fixed c (slug_mem name c hc))
  · rw [htl]; exact slug_head name
  · rw [htl]
    intro hlast
    show (⟨slugChars (slugify name)⟩ : String) = ⟨slugChars name⟩
    congr 1
    show (stripEdgeHyphens (collapseGo
      ((slugify name).toList.map asciiToLower) false)).take 30 =
        slugChars name
    rw [htl]
    rw [map_eq_self_of_fixed _ _
      (fun c hc => asciiToLower_fixed c (slug_mem name c hc))]
    rw [collapse_fix (slugChars name) false (slug_mem name)
      (slug_chain name) (fun hc => absurd hc (by decide))]
    rw [strip_id (slugChars name) (slug_head name) hlast]
    exact List.take_of_length_le (slug_len name)

/-- Witness for the amended C4: "Hello World" slugifies to
"hello-world", which has no trailing hyphen, and slugifying it again
returns it unchanged. -/
theorem c4_amended_slugify_shape_witness :
    (slugify "Hello World").toList.getLast? ≠ some '-' ∧
    slugify (slugify "Hello World") = slugify "Hello World" :=
  ⟨by decide,
    (c4_amended_slugify_shape "Hello World").2.2.2.2 (by decide)⟩
